import Mathlib

/-!
Verification of the banana-slides backend against its specification.

The definitions below are a shallow embedding of the Python sources:
  - backend/utils/validators.py   (status-string validators)
  - backend/services/ai_service.py (outline flattening, code-fence
    stripping, image-API dispatch and the chat-compatible image decoder)
plus a model, written from the specification, of the Task progress record
(the repository ships no Task implementation; only its HTTP clients and
tests appear in the sources).

Python strings are modelled as Lean `String`s (`List Char` data),
Python dicts as association lists in insertion order, fallible Python
code as `Except`-returning functions, and `None`-able arguments as
`Option`s.  Network and image-library effects are passed in as explicit
oracle functions so that control flow stays faithful to the source.
-/

namespace BananaSlides

/-! ## validators.py -/

/-- `PROJECT_STATUSES` from backend/utils/validators.py lines 8-14.
The Python source uses a set literal; membership is the only operation
performed on it, so a list model is faithful. -/
def PROJECT_STATUSES : List String :=
  ["DRAFT", "OUTLINE_GENERATED", "DESCRIPTIONS_GENERATED",
   "GENERATING_IMAGES", "COMPLETED"]

/-- `PAGE_STATUSES` from backend/utils/validators.py lines 17-23. -/
def PAGE_STATUSES : List String :=
  ["DRAFT", "DESCRIPTION_GENERATED", "GENERATING", "COMPLETED", "FAILED"]

/-- `TASK_STATUSES` from backend/utils/validators.py lines 26-31. -/
def TASK_STATUSES : List String :=
  ["PENDING", "PROCESSING", "COMPLETED", "FAILED"]

/-- `validate_project_status` from backend/utils/validators.py lines 40-42. -/
def validate_project_status (status : String) : Bool :=
  PROJECT_STATUSES.contains status

/-- `validate_page_status` from backend/utils/validators.py lines 45-47. -/
def validate_page_status (status : String) : Bool :=
  PAGE_STATUSES.contains status

/-- `validate_task_status` from backend/utils/validators.py lines 50-52. -/
def validate_task_status (status : String) : Bool :=
  TASK_STATUSES.contains status

/-! ## ai_service.py: outline flattening

Python values appearing in outlines are modelled by `PyVal`; a Python
dict is an association list in insertion order with unique keys. -/

inductive PyVal where
  | pstr : String → PyVal
  | pint : Int → PyVal
  | pbool : Bool → PyVal
  | plist : List PyVal → PyVal
  | pdict : List (String × PyVal) → PyVal

/-- A Python dict (association list in insertion order). -/
abbrev PyDict := List (String × PyVal)

/-- Python `k in d` for a dict. -/
def dictMem (d : PyDict) (k : String) : Bool :=
  d.any (fun p => p.1 == k)

/-- Python `d[k]` as an `Option` (`none` = `KeyError`). -/
def dictGet (d : PyDict) (k : String) : Option PyVal :=
  match d with
  | [] => none
  | p :: rest => if p.1 == k then some p.2 else dictGet rest k

/-- Python `d[k] = v`: replace the value in place if the key exists,
otherwise append the new binding (insertion order semantics). -/
def dictSet (d : PyDict) (k : String) (v : PyVal) : PyDict :=
  if d.any (fun p => p.1 == k) then
    d.map (fun p => if p.1 == k then (k, v) else p)
  else d ++ [(k, v)]

/-- The inner loop of `flatten_outline` (ai_service.py lines 262-265):
`for page in item["pages"]: page_with_part = page.copy();
page_with_part["part"] = item["part"]; pages.append(page_with_part)`.
A page that is not a dict makes Python raise (`.copy()` missing),
modelled as `none`. -/
def expandPages (partv : PyVal) : List PyVal → Option (List PyDict)
  | [] => some []
  | PyVal.pdict d :: rest =>
      (expandPages partv rest).map (fun r => dictSet d "part" partv :: r)
  | _ => none

/-- One iteration of the outer loop of `flatten_outline`
(ai_service.py lines 259-268): an item with both a `"part"` and a
`"pages"` key contributes its pages (each copied and given the part's
name under key `"part"`); any other item is appended unchanged. -/
def flattenItem (item : PyDict) : Option (List PyDict) :=
  match dictGet item "part", dictGet item "pages" with
  | some partv, some pagesv =>
      match pagesv with
      | PyVal.plist ps => expandPages partv ps
      | _ => none
  | _, _ => some [item]

/-- `flatten_outline` from ai_service.py lines 253-269, written as the
left-to-right loop over the outline; a Python exception raised while
expanding an item is `none`.  The transform is a pure function of the
outline (it performs no network calls). -/
def flatten_outline : List PyDict → Option (List PyDict)
  | [] => some []
  | item :: rest =>
      match flattenItem item with
      | some contrib => (flatten_outline rest).map (fun r => contrib ++ r)
      | none => none

/-! ## ai_service.py: code-fence stripping (generate_outline / parse_outline_text) -/

/-- Python ASCII whitespace, the character class of `str.strip()` with
no argument. -/
def pyIsSpace (c : Char) : Bool :=
  c == ' ' || c == '\t' || c == '\n' || c == '\r' || c == '\x0b' || c == '\x0c'

/-- Strip characters satisfying `p` from both ends of a list (the
semantics of Python `str.strip`). -/
def stripList (p : Char → Bool) (l : List Char) : List Char :=
  ((l.dropWhile p).reverse.dropWhile p).reverse

/-- Python `s.strip()`. -/
def pyStrip (s : String) : String := ⟨stripList pyIsSpace s.data⟩

/-- Python `s.strip(chars)`: strips any of the CHARACTERS of `chars`
from both ends (`chars` is a character set, not a literal substring). -/
def pyStripChars (s : String) (chars : List Char) : String :=
  ⟨stripList (fun c => chars.contains c) s.data⟩

/-- The characters of the Python literal `"```json"`. -/
def fenceJsonChars : List Char := "```json".data

/-- The characters of the Python literal "```". -/
def fenceTickChars : List Char := "```".data

/-- The response post-processing shared by `generate_outline`
(ai_service.py line 223) and `parse_outline_text` (line 249):
`response.text.strip().strip("```json").strip("```").strip()`, whose
result is then handed to `json.loads`. -/
def stripJsonFence (s : String) : String :=
  pyStrip (pyStripChars (pyStripChars (pyStrip s) fenceJsonChars) fenceTickChars)

/-! ## ai_service.py: AIService construction and image-API dispatch -/

/-- Python `needle in hay` on character lists (substring containment). -/
def hasSubstr (hay needle : List Char) : Bool :=
  match hay with
  | [] => needle.isEmpty
  | c :: t => needle.isPrefixOf (c :: t) || hasSubstr t needle

/-- Python `needle in hay` on `String`s. -/
def pyIn (needle hay : String) : Bool := hasSubstr hay.data needle.data

/-- `_should_use_chat_format` from ai_service.py lines 108-130 (the
Python name carries a leading underscore).  `none` models `api_base =
None`; the Python `if not api_base` check also catches the empty
string. -/
def should_use_chat_format (api_base : Option String) : Bool :=
  match api_base with
  | none => false
  | some s =>
      if s = "" then false
      else if pyIn "generativelanguage.googleapis.com" s ||
          pyIn "googleapis.com" s then false
      else if pyIn "api." s || pyIn "apipro." s || pyIn "/v1/" s ||
          pyIn "openai" s then true
      else false

/-- The Python exception classes raised in the embedded code paths.
`generationError` stands for the dedicated `GenerationError` type that
the specification names; no module of the repository defines or raises
such a class. -/
inductive ExcKind where
  | valueError
  | fileNotFoundError
  | httpError
  | exception
  | generationError
deriving DecidableEq

/-- A raised Python exception: its class and its message. -/
structure PyErr where
  kind : ExcKind
  msg : String
deriving DecidableEq

/-- The configuration state an `AIService` holds after `__init__`
(ai_service.py lines 58-106). -/
structure AIServiceCfg where
  api_key : String
  api_base : Option String
  image_api_key : String
  image_api_base : Option String
  use_chat_format : Bool
deriving DecidableEq

/-- Python `image_api_key or api_key` (line 100): a falsy left operand
(`None` or the empty string) selects the fallback. -/
def pyOrKey (a : Option String) (b : String) : String :=
  match a with
  | none => b
  | some s => if s = "" then b else s

/-- Python `image_api_base or api_base` (line 101). -/
def pyOrBase (a : Option String) (b : Option String) : Option String :=
  match a with
  | none => b
  | some s => if s = "" then b else some s

/-- `AIService.__init__` (ai_service.py lines 58-106): a `None`, empty
or whitespace-only `api_key` raises `ValueError` before any client is
built; otherwise the image credentials fall back to the text
credentials through Python `or`, and the chat-format flag is computed
from the resulting image API base. -/
def AIService_init (api_key api_base image_api_key image_api_base :
    Option String) : Except PyErr AIServiceCfg :=
  match api_key with
  | none => .error ⟨.valueError, "API key not configured"⟩
  | some k =>
      if k = "" || pyStrip k = "" then
        .error ⟨.valueError, "API key not configured"⟩
      else
        .ok { api_key := k
              api_base := api_base
              image_api_key := pyOrKey image_api_key k
              image_api_base := pyOrBase image_api_base api_base
              use_chat_format :=
                should_use_chat_format (pyOrBase image_api_base api_base) }

/-! ## ai_service.py: chat-compatible image response decoding

`_generate_image_chat_format` (lines 361-673) parses the first
choice's string content by trying, in source order: data-URL prefix,
markdown-embedded data-URL (two regex forms), remote http(s) URL, and a
final raw-base64 fallback.  `decodeAction` captures which branch fires
and what payload it extracts. -/

/-- The literal `"data:image"` (the `startswith` check of line 534). -/
def dataImageStart : List Char := "data:image".data

/-- The literal `"![image]"` (the containment check of line 541). -/
def bangImageSub : List Char := "![image]".data

/-- The literal `"![image]("`, the fixed prelude of the regex of
line 544. -/
def bangImageParen : List Char := "![image](".data

/-- The literal `"!["` (the `startswith` check of line 553). -/
def bangBracket : List Char := "![".data

/-- The literal `"data:image/"` opening the regex capture groups. -/
def dataImageSlash : List Char := "data:image/".data

/-- The literal `"http://"`. -/
def httpPrefix : List Char := "http://".data

/-- The literal `"https://"`. -/
def httpsPrefix : List Char := "https://".data

/-- The regex capture `(data:image/[^)]+)\)`: the longest run of
non-`)` characters must extend `data:image/` by at least one character
and be terminated by a `)`. -/
def mdCapture (r : List Char) : Option (List Char) :=
  let cap := r.takeWhile (fun c => c != ')')
  if dataImageSlash.isPrefixOf cap ∧ dataImageSlash.length + 1 ≤ cap.length ∧
      cap.length < r.length
  then some cap else none

/-- The regex tail `\]\((data:image/[^)]+)\)` tried at the current
position. -/
def mdTail (l : List Char) : Option (List Char) :=
  match l with
  | ']' :: '(' :: r => mdCapture r
  | _ => none

/-- The lazy `.*?` between `!\[` and `\]`: try the tail at each
position, consuming one non-newline character at a time (Python `.`
does not match newline). -/
def mdAfterBang : List Char → Option (List Char)
  | [] => none
  | c :: rest =>
      match mdTail (c :: rest) with
      | some cap => some cap
      | none => if c = '\n' then none else mdAfterBang rest

/-- Leftmost search for `\!\[.*?\]\((data:image/[^)]+)\)`
(ai_service.py line 557). -/
def mdSearch3 : List Char → Option (List Char)
  | [] => none
  | '!' :: '[' :: rest =>
      (match mdAfterBang rest with
       | some cap => some cap
       | none => mdSearch3 ('[' :: rest))
  | _ :: rest => mdSearch3 rest

/-- Leftmost search for `!\[image\]\((data:image/[^)]+)\)`
(ai_service.py line 544). -/
def mdSearch2 : List Char → Option (List Char)
  | [] => none
  | c :: rest =>
      (match (if bangImageParen.isPrefixOf (c :: rest)
              then mdCapture ((c :: rest).drop bangImageParen.length)
              else none) with
       | some cap => some cap
       | none => mdSearch2 rest)

/-- Python `s.split(',', 1)[1]` guarded by `if ',' in s`: everything
after the first comma, `none` when there is no comma. -/
def afterFirstComma : List Char → Option (List Char)
  | [] => none
  | ',' :: r => some r
  | _ :: r => afterFirstComma r

/-- The branch taken on a string content, with the payload it extracts
(ai_service.py lines 530-584). -/
inductive DecodeAction where
  | emptyContent
  | dataUrlB64 (b64 : List Char)
  | invalidDataUrl
  | markdownB64 (b64 : List Char)
  | invalidMarkdownDataUrl
  | markdownNoMatch
  | download (url : List Char)
  | rawB64 (b64 : List Char)
  | rawTooShort
deriving DecidableEq

/-- The branch-selection logic of lines 530-584, in source order:
empty check; data-URL prefix; markdown with `![image]` and `data:image`;
generic markdown prefix `![`; remote http(s) URL; raw-base64 fallback
(strip, then reject empty or shorter than 100 characters). -/
def decodeAction (content : List Char) : DecodeAction :=
  if content.isEmpty then .emptyContent
  else if dataImageStart.isPrefixOf content then
    match afterFirstComma content with
    | some b64 => .dataUrlB64 b64
    | none => .invalidDataUrl
  else if hasSubstr content bangImageSub && hasSubstr content dataImageStart then
    match mdSearch2 content with
    | some durl =>
        (match afterFirstComma durl with
         | some b64 => .markdownB64 b64
         | none => .invalidMarkdownDataUrl)
    | none => .markdownNoMatch
  else if bangBracket.isPrefixOf content then
    match mdSearch3 content with
    | some durl =>
        (match afterFirstComma durl with
         | some b64 => .markdownB64 b64
         | none => .invalidMarkdownDataUrl)
    | none => .markdownNoMatch
  else if httpPrefix.isPrefixOf content || httpsPrefix.isPrefixOf content then
    .download content
  else
    let s := stripList pyIsSpace content
    if s.isEmpty || s.length < 100 then .rawTooShort
    else .rawB64 s

/-- The base64 alphabet kept by the cleaning regex of line 608. -/
def isBase64Char (c : Char) : Bool :=
  ('A' ≤ c && c ≤ 'Z') || ('a' ≤ c && c ≤ 'z') || ('0' ≤ c && c ≤ '9') ||
  c == '+' || c == '/' || c == '='

/-- C3 refinement model: the claim's data-URL shape. -/
def matchesDataUrlShape (c : List Char) : Bool := dataImageStart.isPrefixOf c

/-- C3 refinement model: the claim's markdown-embedded shape (the union
of the source's two markdown guards). -/
def matchesMarkdownShape (c : List Char) : Bool :=
  (hasSubstr c bangImageSub && hasSubstr c dataImageStart) ||
  bangBracket.isPrefixOf c

/-- C3 refinement model: the claim's raw-base64-blob shape — after
end-stripping, a non-empty run of at least 100 characters consisting of
base64 alphabet and embedded whitespace only (the 100-character floor is
the source's own viability threshold for an image payload). -/
def matchesRawB64Shape (c : List Char) : Bool :=
  !(stripList pyIsSpace c).isEmpty &&
    decide (100 ≤ (stripList pyIsSpace c).length) &&
    (stripList pyIsSpace c).all (fun ch => isBase64Char ch || pyIsSpace ch)

/-- C3 refinement model: the claim's remote-URL shape. -/
def matchesRemoteUrlShape (c : List Char) : Bool :=
  httpPrefix.isPrefixOf c || httpsPrefix.isPrefixOf c

/-- Decoder written from the claim's words: the four shapes tried in the
claim's priority order data-URL, markdown-embedded, raw-base64,
remote-URL, each branch acting as the source's corresponding branch
does; `none` when no shape matches (a case about which the claim is
silent). -/
def claimOrderDecode (content : List Char) : Option DecodeAction :=
  if content.isEmpty then some .emptyContent
  else if matchesDataUrlShape content then
    some (match afterFirstComma content with
          | some b64 => .dataUrlB64 b64
          | none => .invalidDataUrl)
  else if hasSubstr content bangImageSub && hasSubstr content dataImageStart then
    some (match mdSearch2 content with
          | some durl =>
              (match afterFirstComma durl with
               | some b64 => DecodeAction.markdownB64 b64
               | none => DecodeAction.invalidMarkdownDataUrl)
          | none => DecodeAction.markdownNoMatch)
  else if bangBracket.isPrefixOf content then
    some (match mdSearch3 content with
          | some durl =>
              (match afterFirstComma durl with
               | some b64 => DecodeAction.markdownB64 b64
               | none => DecodeAction.invalidMarkdownDataUrl)
          | none => DecodeAction.markdownNoMatch)
  else if matchesRawB64Shape content then
    some (.rawB64 (stripList pyIsSpace content))
  else if matchesRemoteUrlShape content then
    some (.download content)
  else none

/-! ## ai_service.py: generate_image, both wire formats

External effects (HTTP, base64 decoding, PIL image loading) are passed
in as oracle functions returning `Except`, so the embedded control flow
is quantified over every possible outcome of those effects. -/

/-- An abstract, always-truthy PIL image handle. -/
structure Img where
  id : Nat
deriving DecidableEq

/-- Abstract byte strings. -/
abbrev Bytes := List Nat

/-- Oracles for the external effects of the image pipeline. -/
structure Oracles where
  httpGetBytes : List Char → Except PyErr Bytes
  imageOpen : Bytes → Except PyErr Img
  b64decode : List Char → Except PyErr Bytes
  isJsonError : Bytes → Bool

/-- The cleaning applied to every base64 payload before decoding
(lines 600-619): remove all whitespace, keep only base64-alphabet
characters, pad with `=` to a multiple of four. -/
def cleanB64 (l : List Char) : List Char :=
  let noWs := l.filter (fun c => !pyIsSpace c)
  let cleaned := noWs.filter isBase64Char
  cleaned ++ List.replicate ((4 - cleaned.length % 4) % 4) '='

/-- The base64 decode tail shared by the data-URL, markdown and raw
branches (lines 586-664): clean, decode, reject payloads under 100
bytes, reject JSON error bodies, open the image.  Every failure in this
region is re-raised as `ValueError`. -/
def decodeB64Tail (o : Oracles) (b64 : List Char) : Except PyErr Img :=
  match o.b64decode (cleanB64 b64) with
  | .error _ => .error ⟨.valueError, "Invalid base64 data"⟩
  | .ok bytes =>
      if bytes.length < 100 then
        .error ⟨.valueError, "Failed to decode image data: too small"⟩
      else if o.isJsonError bytes then
        .error ⟨.valueError, "Failed to decode image data: JSON error body"⟩
      else
        match o.imageOpen bytes with
        | .ok img => .ok img
        | .error _ => .error ⟨.valueError, "Failed to decode image data"⟩

/-- `requests.get` + `raise_for_status` + `Image.open` (lines 475-479
and 569-573); failures propagate. -/
def downloadImage (o : Oracles) (url : List Char) : Except PyErr Img :=
  match o.httpGetBytes url with
  | .error e => .error e
  | .ok bytes => o.imageOpen bytes

/-- A choice's `message.content`: a string, or some non-string value
(an absent key defaults to the empty string, i.e. `cstr []`). -/
inductive PyContent where
  | cstr (s : List Char)
  | cother
deriving DecidableEq

/-- One entry of a `data`-array response (line 468-486). -/
structure ChatDataItem where
  url : Option (List Char)
  b64_json : Option (List Char)
deriving DecidableEq

/-- One entry of a `choices` response. -/
structure ChatChoice where
  content : PyContent
deriving DecidableEq

/-- The parsed JSON body of a chat-completions response. -/
structure ChatResponse where
  dataItems : List ChatDataItem
  choices : List ChatChoice
deriving DecidableEq

/-- Decode a string (or non-string) content via `decodeAction`
(lines 530-664). -/
def decodeContent (o : Oracles) (content : PyContent) : Except PyErr Img :=
  match content with
  | .cother => .error ⟨.valueError, "Unexpected content type"⟩
  | .cstr s =>
      match decodeAction s with
      | .emptyContent => .error ⟨.valueError, "Empty content in API response"⟩
      | .dataUrlB64 b64 => decodeB64Tail o b64
      | .invalidDataUrl => .error ⟨.valueError, "Invalid data URL format"⟩
      | .markdownB64 b64 => decodeB64Tail o b64
      | .invalidMarkdownDataUrl =>
          .error ⟨.valueError, "Invalid data URL in markdown"⟩
      | .markdownNoMatch =>
          .error ⟨.valueError, "Could not extract data URL from markdown format"⟩
      | .download url => downloadImage o url
      | .rawB64 b64 => decodeB64Tail o b64
      | .rawTooShort =>
          .error ⟨.valueError, "Content does not look like base64 image data"⟩

/-- The `choices` path of `_generate_image_chat_format` (lines
488-668): no choices raises `ValueError`, otherwise the first choice's
content is decoded. -/
def chatChoicesPath (o : Oracles) (resp : ChatResponse) : Except PyErr Img :=
  match resp.choices with
  | [] => .error ⟨.valueError, "No valid response from chat API"⟩
  | ch :: _ => decodeContent o ch.content

/-- The body of `_generate_image_chat_format` (lines 380-668): the
reference-image assembly and the POST may raise (`prep`, `post`); a
non-empty `data` array is consulted first (a `url` entry is downloaded,
a `b64_json` entry is decoded without cleaning), then the `choices`
path runs. -/
def chatFormatBody (o : Oracles) (prep : Except PyErr Unit)
    (post : Except PyErr ChatResponse) : Except PyErr Img :=
  match prep with
  | .error e => .error e
  | .ok _ =>
      match post with
      | .error e => .error e
      | .ok resp =>
          match resp.dataItems with
          | d0 :: _ =>
              (match d0.url with
               | some u => downloadImage o u
               | none =>
                   match d0.b64_json with
                   | some b =>
                       (match o.b64decode b with
                        | .error e => .error e
                        | .ok bytes => o.imageOpen bytes)
                   | none => chatChoicesPath o resp)
          | [] => chatChoicesPath o resp

/-- `_generate_image_chat_format` with its blanket `except Exception`
(lines 670-673): every failure is re-raised as a plain `Exception`
carrying the detail message; a success returns the image (never
`None`). -/
def generate_image_chat_format (o : Oracles) (prep : Except PyErr Unit)
    (post : Except PyErr ChatResponse) : Except PyErr (Option Img) :=
  match chatFormatBody o prep post with
  | .ok img => .ok (some img)
  | .error e =>
      .error ⟨.exception, "Error generating image (chat format): " ++ e.msg⟩

/-- A part of a native-SDK response: text, or a media part whose
`as_image()` may raise or return a falsy image. -/
inductive RespPart where
  | textPart (t : List Char)
  | mediaPart (asImage : Except PyErr (Option Img))

/-- The part scan of the native branch (lines 765-778): text parts are
skipped, `as_image()` failures are caught and skipped, falsy images are
skipped, the first truthy image is returned. -/
def nativeScanParts : List RespPart → Option Img
  | [] => none
  | .textPart _ :: rest => nativeScanParts rest
  | .mediaPart r :: rest =>
      match r with
      | .ok (some img) => some img
      | _ => nativeScanParts rest

/-- The native-SDK branch of `generate_image` (lines 700-787): a given
but missing main reference file raises `FileNotFoundError`; reference
assembly and the API call may raise (`prep`, `call`); a scan with no
image raises `ValueError`. -/
def nativeBody (refGiven refExists : Bool) (prep : Except PyErr Unit)
    (call : Except PyErr (List RespPart)) : Except PyErr Img :=
  if refGiven && !refExists then
    .error ⟨.fileNotFoundError, "Reference image not found"⟩
  else
    match prep with
    | .error e => .error e
    | .ok _ =>
        match call with
        | .error e => .error e
        | .ok parts =>
            match nativeScanParts parts with
            | some img => .ok img
            | none => .error ⟨.valueError, "No image found in API response"⟩

/-- The native branch with its blanket `except Exception` (lines
789-792). -/
def nativeResult (refGiven refExists : Bool) (prep : Except PyErr Unit)
    (call : Except PyErr (List RespPart)) : Except PyErr (Option Img) :=
  match nativeBody refGiven refExists prep call with
  | .ok img => .ok (some img)
  | .error e => .error ⟨.exception, "Error generating image: " ++ e.msg⟩

/-- `generate_image` (lines 675-792): dispatches on
`cfg.use_chat_format` — the flag `__init__` computed from the image API
base — to the chat-compatible or the native handler. -/
def generate_image (cfg : AIServiceCfg) (o : Oracles)
    (chatPrep : Except PyErr Unit) (post : Except PyErr ChatResponse)
    (refGiven refExists : Bool) (nativePrep : Except PyErr Unit)
    (call : Except PyErr (List RespPart)) : Except PyErr (Option Img) :=
  if cfg.use_chat_format then generate_image_chat_format o chatPrep post
  else nativeResult refGiven refExists nativePrep call

/-- The class of the exception a result raised, if it raised. -/
def errKind : Except PyErr (Option Img) → Option ExcKind
  | .error e => some e.kind
  | .ok _ => none

/-- Oracles whose every effect fails (used for concrete evaluations). -/
def cexOracles : Oracles :=
  { httpGetBytes := fun _ => .error ⟨.httpError, "connection failed"⟩
    imageOpen := fun _ => .error ⟨.valueError, "cannot identify image"⟩
    b64decode := fun _ => .error ⟨.valueError, "invalid base64"⟩
    isJsonError := fun _ => false }

/-- The configuration `AIService.__init__` produces for a third-party
image API base (chat-compatible dispatch). -/
def chatCexCfg : AIServiceCfg :=
  { api_key := "k"
    api_base := some "https://api.example.com/v1/"
    image_api_key := "k"
    image_api_base := some "https://api.example.com/v1/"
    use_chat_format := true }

/-! ## Task progress record

Modelled from the spec: the repository ships no Task implementation in
its sources — the demo/test scripts only poll a `tasks/<id>` endpoint —
so the Task record and its permitted mutations are taken from spec
sections 3 and 4.1. -/

/-- Modelled from the spec: the Task status enum
{PENDING, PROCESSING, COMPLETED, FAILED}. -/
inductive TaskStatus where
  | pending
  | processing
  | completed
  | failed
deriving DecidableEq

/-- Modelled from the spec: one fan-out job's aggregate record.  The
spec's non-negative integer counters are `Nat`s, so `0 ≤ completed`,
`0 ≤ failed` hold by type. -/
structure Task where
  total : Nat
  completed : Nat
  failed : Nat
  status : TaskStatus
deriving DecidableEq

/-- Modelled from the spec: a Task is created `PENDING` with zeroed
counters the instant a fan-out request is accepted. -/
def createTask (n : Nat) : Task :=
  { total := n, completed := 0, failed := 0, status := .pending }

/-- Modelled from the spec: the mutations the Dispatcher/Orchestrator
may perform — start processing; count one unit terminal (completed or
failed) while units remain; mark the task COMPLETED when all units are
terminal (unless every unit failed); mark it FAILED on total loss. -/
inductive TaskStep : Task → Task → Prop where
  | start (t : Task) :
      t.status = .pending → TaskStep t { t with status := .processing }
  | unitCompleted (t : Task) :
      t.status = .processing → t.completed + t.failed < t.total →
      TaskStep t { t with completed := t.completed + 1 }
  | unitFailed (t : Task) :
      t.status = .processing → t.completed + t.failed < t.total →
      TaskStep t { t with failed := t.failed + 1 }
  | finishCompleted (t : Task) :
      t.status = .processing → t.completed + t.failed = t.total →
      t.failed < t.total ∨ t.total = 0 →
      TaskStep t { t with status := .completed }
  | finishFailed (t : Task) :
      t.status = .processing → t.completed + t.failed = t.total →
      t.failed = t.total → 0 < t.total →
      TaskStep t { t with status := .failed }

/-- Modelled from the spec: the Task states observable at any point of
a run. -/
inductive TaskReachable : Task → Prop where
  | init (n : Nat) : TaskReachable (createTask n)
  | step {t t' : Task} : TaskReachable t → TaskStep t t' → TaskReachable t'

/-- A mid-run observation point used by the invariant witness. -/
def witnessTask : Task :=
  { total := 3, completed := 1, failed := 0, status := .processing }

/-- Sample outline for the specification's scenario: 3 direct pages plus
one part containing 2 pages. -/
def sampleOutline : List PyDict :=
  [ [("title", PyVal.pstr "Intro")],
    [("title", PyVal.pstr "Agenda")],
    [("part", PyVal.pstr "Deep Dive"),
     ("pages", PyVal.plist
        [PyVal.pdict [("title", PyVal.pstr "Detail A")],
         PyVal.pdict [("title", PyVal.pstr "Detail B")]])],
    [("title", PyVal.pstr "Summary")] ]

/-- The flat page list the scenario expects: length 5, source order,
the two part-pages carrying the part name under key `"part"`. -/
def sampleFlattened : List PyDict :=
  [ [("title", PyVal.pstr "Intro")],
    [("title", PyVal.pstr "Agenda")],
    [("title", PyVal.pstr "Detail A"), ("part", PyVal.pstr "Deep Dive")],
    [("title", PyVal.pstr "Detail B"), ("part", PyVal.pstr "Deep Dive")],
    [("title", PyVal.pstr "Summary")] ]

/-- Helper: looking up `k` after the in-place replacement map. -/
theorem dictGet_map_replace (d : PyDict) (k : String) (v : PyVal) :
    dictGet (d.map (fun p => if p.1 == k then (k, v) else p)) k =
      if d.any (fun p => p.1 == k) then some v else none := by
  induction d with
  | nil => rfl
  | cons hd tl ih =>
      by_cases h : hd.1 = k
      · have hb : (hd.1 == k) = true := by simp [h]
        simp [dictGet, List.any_cons, hb]
      · have hb : (hd.1 == k) = false := by simp [h]
        calc dictGet ((hd :: tl).map (fun p => if p.1 == k then (k, v) else p)) k
            = dictGet (tl.map (fun p => if p.1 == k then (k, v) else p)) k := by
              simp [dictGet, hb]
          _ = if (tl.any fun p => p.1 == k) = true then some v else none := ih
          _ = if ((hd :: tl).any fun p => p.1 == k) = true then some v else none := by
              simp only [List.any_cons, hb, Bool.false_or]

/-- Helper: appending a fresh binding makes it visible under its key. -/
theorem dictGet_append_self (d : PyDict) (k : String) (v : PyVal)
    (h : d.any (fun p => p.1 == k) = false) :
    dictGet (d ++ [(k, v)]) k = some v := by
  induction d with
  | nil => simp [dictGet]
  | cons hd tl ih =>
      have h1 : (hd.1 == k) = false := by
        cases hq : hd.1 == k
        · rfl
        · simp [List.any_cons, hq] at h
      have h2 : tl.any (fun p => p.1 == k) = false := by
        cases hq : tl.any (fun p => p.1 == k)
        · rfl
        · simp [List.any_cons, hq] at h
      simp [dictGet, h1, ih h2]

/-- Helper: a value just written under key `k` is read back under `k`. -/
theorem dictGet_dictSet_self (d : PyDict) (k : String) (v : PyVal) :
    dictGet (dictSet d k v) k = some v := by
  unfold dictSet
  by_cases h : d.any (fun p => p.1 == k) = true
  · rw [if_pos h, dictGet_map_replace, if_pos h]
  · have hf : d.any (fun p => p.1 == k) = false := by
      cases hq : d.any (fun p => p.1 == k)
      · rfl
      · exact absurd hq h
    rw [if_neg h]
    exact dictGet_append_self d k v hf

/-- Helper: expanding a list of dict pages succeeds and tags each page,
preserving order. -/
theorem expandPages_map_pdict (partv : PyVal) (ds : List PyDict) :
    expandPages partv (ds.map PyVal.pdict) =
      some (ds.map (fun d => dictSet d "part" partv)) := by
  induction ds with
  | nil => rfl
  | cons hd tl ih => simp [expandPages, ih]

/-- Helper: `dropWhile` walks through a block that satisfies `p`. -/
theorem dropWhile_append_all (p : Char → Bool) (l₁ l₂ : List Char)
    (h : ∀ a ∈ l₁, p a = true) :
    (l₁ ++ l₂).dropWhile p = l₂.dropWhile p := by
  induction l₁ with
  | nil => rfl
  | cons a t ih =>
      have ha := h a (List.mem_cons_self a t)
      simp [List.dropWhile_cons, ha,
        ih fun b hb => h b (List.mem_cons_of_mem a hb)]

/-- Helper: `dropWhile` is the identity when the head fails `p`. -/
theorem dropWhile_head_not (p : Char → Bool) (l : List Char)
    (h : ∀ a, l.head? = some a → p a = false) :
    l.dropWhile p = l := by
  cases l with
  | nil => rfl
  | cons a t => simp [List.dropWhile_cons, h a rfl]

/-- Helper: stripping a middle block padded on both sides by characters
satisfying `p` returns exactly the middle block. -/
theorem stripList_padded (p : Char → Bool) (l₁ m l₂ : List Char)
    (hm : m ≠ [])
    (h₁ : ∀ a ∈ l₁, p a = true) (h₂ : ∀ a ∈ l₂, p a = true)
    (hh : ∀ a, m.head? = some a → p a = false)
    (ht : ∀ a, m.getLast? = some a → p a = false) :
    stripList p (l₁ ++ (m ++ l₂)) = m := by
  unfold stripList
  rw [dropWhile_append_all p l₁ (m ++ l₂) h₁]
  rw [dropWhile_head_not p (m ++ l₂) ?hmh]
  case hmh =>
    intro a ha
    cases m with
    | nil => exact absurd rfl hm
    | cons c t =>
        have hac : c = a := by simpa using ha
        exact hac ▸ hh c rfl
  rw [List.reverse_append]
  rw [dropWhile_append_all p l₂.reverse m.reverse
    (fun a ha => h₂ a (List.mem_reverse.mp ha))]
  rw [dropWhile_head_not p m.reverse ?hmt]
  case hmt =>
    intro a ha
    rw [List.head?_reverse] at ha
    exact ht a ha
  exact List.reverse_reverse m

/-- Helper: stripping is the identity when both ends fail `p`. -/
theorem stripList_no_strip (p : Char → Bool) (l : List Char)
    (hh : ∀ a, l.head? = some a → p a = false)
    (ht : ∀ a, l.getLast? = some a → p a = false) :
    stripList p l = l := by
  unfold stripList
  rw [dropWhile_head_not p l hh]
  rw [dropWhile_head_not p l.reverse ?hrt]
  case hrt =>
    intro a ha
    rw [List.head?_reverse] at ha
    exact ht a ha
  exact List.reverse_reverse l

/-- Helper: the six Python whitespace characters. -/
theorem pyIsSpace_cases (c : Char) (h : pyIsSpace c = true) :
    c = ' ' ∨ c = '\t' ∨ c = '\n' ∨ c = '\r' ∨ c = '\x0b' ∨ c = '\x0c' := by
  have h2 := h
  simp only [pyIsSpace, Bool.or_eq_true, beq_iff_eq] at h2
  tauto

/-- Helper: whitespace characters are not characters of "```json". -/
theorem space_not_fenceJson (c : Char) (h : pyIsSpace c = true) :
    fenceJsonChars.contains c = false := by
  rcases pyIsSpace_cases c h with h | h | h | h | h | h <;> subst h <;> decide

/-- Helper: whitespace characters are not characters of "```". -/
theorem space_not_fenceTick (c : Char) (h : pyIsSpace c = true) :
    fenceTickChars.contains c = false := by
  rcases pyIsSpace_cases c h with h | h | h | h | h | h <;> subst h <;> decide

/-- Helper: head of a whitespace-padded block, seen through any
predicate `q` that rejects whitespace and the core's head. -/
theorem padded_head_not (q : Char → Bool) (w₁ core rest : List Char)
    (hw : ∀ c ∈ w₁, pyIsSpace c = true) (hcore : core ≠ [])
    (hq : ∀ c, core.head? = some c → q c = false)
    (hsp : ∀ c, pyIsSpace c = true → q c = false) :
    ∀ c, (w₁ ++ (core ++ rest)).head? = some c → q c = false := by
  intro c hc
  cases w₁ with
  | cons a t =>
      have hac : a = c := by simpa using hc
      exact hac ▸ hsp a (hw a (List.mem_cons_self a t))
  | nil =>
      cases core with
      | nil => exact absurd rfl hcore
      | cons b t =>
          have hbc : b = c := by simpa using hc
          exact hbc ▸ hq b rfl

/-- Helper: last element of a whitespace-padded block. -/
theorem padded_last_not (q : Char → Bool) (w₁ core w₂ : List Char)
    (hw : ∀ c ∈ w₂, pyIsSpace c = true) (hcore : core ≠ [])
    (hq : ∀ c, core.getLast? = some c → q c = false)
    (hsp : ∀ c, pyIsSpace c = true → q c = false) :
    ∀ c, (w₁ ++ (core ++ w₂)).getLast? = some c → q c = false := by
  intro c hc
  rw [← List.append_assoc] at hc
  cases hw2 : w₂ with
  | nil =>
      rw [hw2, List.append_nil,
        List.getLast?_append_of_ne_nil w₁ hcore] at hc
      exact hq c hc
  | cons a t =>
      rw [hw2, List.getLast?_append_of_ne_nil _ (List.cons_ne_nil a t)] at hc
      have hmem : c ∈ a :: t := List.mem_of_mem_getLast? hc
      rw [← hw2] at hmem
      exact hsp c (hw c hmem)

/-- Helper: `stripJsonFence` unfolded to list form. -/
theorem stripJsonFence_mk (l : List Char) :
    stripJsonFence ⟨l⟩ =
      ⟨stripList pyIsSpace (stripList (fun c => fenceTickChars.contains c)
        (stripList (fun c => fenceJsonChars.contains c)
          (stripList pyIsSpace l)))⟩ := rfl

/-- Helper: substring containment as an explicit decomposition. -/
theorem hasSubstr_iff (hay needle : List Char) :
    hasSubstr hay needle = true ↔ ∃ l r, hay = l ++ (needle ++ r) := by
  induction hay with
  | nil =>
      simp only [hasSubstr, List.isEmpty_iff]
      constructor
      · intro h
        exact ⟨[], [], by simp [h]⟩
      · rintro ⟨l, r, h⟩
        rcases List.append_eq_nil.mp h.symm with ⟨hl, hnr⟩
        rcases List.append_eq_nil.mp hnr with ⟨hn, hr⟩
        exact hn
  | cons c t ih =>
      simp only [hasSubstr, Bool.or_eq_true]
      constructor
      · rintro (hpre | hsub)
        · obtain ⟨r, hr⟩ := List.isPrefixOf_iff_prefix.mp hpre
          exact ⟨[], r, by simp [← hr]⟩
        · obtain ⟨l, r, hlr⟩ := ih.mp hsub
          exact ⟨c :: l, r, by simp [hlr]⟩
      · rintro ⟨l, r, hlr⟩
        cases l with
        | nil =>
            left
            apply List.isPrefixOf_iff_prefix.mpr
            exact ⟨r, by simpa using hlr.symm⟩
        | cons x xs =>
            right
            apply ih.mpr
            exact ⟨xs, r, congrArg List.tail hlr⟩

/-- Helper: substring containment is transitive through a middle
string. -/
theorem hasSubstr_trans (s a b : List Char) (h1 : hasSubstr s a = true)
    (h2 : hasSubstr a b = true) : hasSubstr s b = true := by
  obtain ⟨l1, r1, e1⟩ := (hasSubstr_iff s a).mp h1
  obtain ⟨l2, r2, e2⟩ := (hasSubstr_iff a b).mp h2
  exact (hasSubstr_iff s b).mpr
    ⟨l1 ++ l2, r2 ++ r1, by simp [e1, e2, List.append_assoc]⟩

/-- Helper: the end-stripped content is a prefix of the content when the
content's head is not whitespace. -/
theorem stripList_prefix_of_head_not_space (c : List Char)
    (hleft : c.dropWhile pyIsSpace = c) :
    stripList pyIsSpace c ++ (c.reverse.takeWhile pyIsSpace).reverse = c := by
  unfold stripList
  rw [hleft]
  rw [← List.reverse_append]
  rw [List.takeWhile_append_dropWhile]
  exact List.reverse_reverse c

/-- Helper: a content carrying a URL-scheme prefix (which contains a
colon) cannot match the raw-base64 shape: the colon survives the end
strip and is neither base64-alphabet nor whitespace. -/
theorem rawShape_no_url (c p : List Char)
    (hcolon : ':' ∈ p) (hplen : p.length ≤ 100)
    (hph : pyIsSpace (p.headD 'x') = false)
    (hp : p.isPrefixOf c = true)
    (hraw : matchesRawB64Shape c = true) : False := by
  obtain ⟨r, hr⟩ := List.isPrefixOf_iff_prefix.mp hp
  simp only [matchesRawB64Shape, Bool.and_eq_true, List.all_eq_true] at hraw
  obtain ⟨⟨hne, hlen⟩, hall⟩ := hraw
  have hlen2 : 100 ≤ (stripList pyIsSpace c).length := of_decide_eq_true hlen
  have hleft : c.dropWhile pyIsSpace = c := by
    cases p with
    | nil => simp at hcolon
    | cons a p2 =>
        have hc : c = a :: (p2 ++ r) := by rw [← hr]; rfl
        rw [hc]
        apply dropWhile_head_not
        intro b hb
        have hab : a = b := by simpa using hb
        subst hab
        simpa using hph
  have hsC : stripList pyIsSpace c <+: c :=
    ⟨_, stripList_prefix_of_head_not_space c hleft⟩
  have hpC : p <+: c := ⟨r, hr⟩
  have hps : p <+: stripList pyIsSpace c :=
    List.prefix_of_prefix_length_le hpC hsC (le_trans hplen hlen2)
  have hcolonS : ':' ∈ stripList pyIsSpace c := hps.subset hcolon
  have hbad := hall ':' hcolonS
  simp [isBase64Char, pyIsSpace] at hbad

end BananaSlides

open BananaSlides

/-- C7: `validate_task_status s` returns true exactly when `s` is one of
the four task statuses PENDING, PROCESSING, COMPLETED, FAILED; every
other string is rejected. -/
theorem C7_validate_task_status_iff (s : String) :
    validate_task_status s = true ↔
      s = "PENDING" ∨ s = "PROCESSING" ∨ s = "COMPLETED" ∨ s = "FAILED" := by
  simp [validate_task_status, TASK_STATUSES]

/-- C7 witness: "PENDING" is accepted. -/
theorem C7_validate_task_status_iff_witness :
    validate_task_status "PENDING" = true :=
  (C7_validate_task_status_iff "PENDING").mpr (Or.inl rfl)

/-- C5 counterexample: the claim says `validate_project_status "FAILED"`
returns true, but `FAILED` is not a member of `PROJECT_STATUSES`, so the
validator rejects it. -/
theorem C5_failed_not_a_project_status :
    validate_project_status "FAILED" = false := by decide

/-- C5 (amended): FAILED is not an accepted project status; the accepted
project statuses are exactly DRAFT, OUTLINE_GENERATED,
DESCRIPTIONS_GENERATED, GENERATING_IMAGES and COMPLETED (FAILED is a
valid page status and task status, but not a project status). -/
theorem C5_project_statuses_exact (s : String) :
    (validate_project_status s = true ↔
      s = "DRAFT" ∨ s = "OUTLINE_GENERATED" ∨ s = "DESCRIPTIONS_GENERATED" ∨
      s = "GENERATING_IMAGES" ∨ s = "COMPLETED") ∧
    validate_project_status "FAILED" = false ∧
    validate_page_status "FAILED" = true ∧
    validate_task_status "FAILED" = true := by
  refine ⟨?_, by decide, by decide, by decide⟩
  simp [validate_project_status, PROJECT_STATUSES]

/-- C1: `flatten_outline` preserves source order (it distributes over
concatenation of outlines); an item with both a `"part"` and a `"pages"`
key contributes its pages in order, each carrying a `"part"` key equal to
the part's name; every other item is appended unchanged as a direct
page; a written `"part"` key is read back; and the 3-direct-plus-one-part
scenario flattens to the expected list of length 5.  The transform is a
pure function (no network calls appear in its embedding). -/
theorem C1_flatten_outline_spec :
    (∀ o1 o2 : List PyDict,
        flatten_outline (o1 ++ o2) =
          match flatten_outline o1, flatten_outline o2 with
          | some r1, some r2 => some (r1 ++ r2)
          | _, _ => none) ∧
    (∀ (item : PyDict) (partv : PyVal) (ds : List PyDict),
        dictGet item "part" = some partv →
        dictGet item "pages" = some (PyVal.plist (ds.map PyVal.pdict)) →
        flatten_outline [item] =
          some (ds.map (fun d => dictSet d "part" partv))) ∧
    (∀ item : PyDict,
        (dictGet item "part" = none ∨ dictGet item "pages" = none) →
        flatten_outline [item] = some [item]) ∧
    (∀ (d : PyDict) (partv : PyVal),
        dictGet (dictSet d "part" partv) "part" = some partv) ∧
    (flatten_outline sampleOutline = some sampleFlattened ∧
      sampleFlattened.length = 5) := by
  refine ⟨?_, ?_, ?_, ?_, ?_, ?_⟩
  · intro o1 o2
    induction o1 with
    | nil => cases h2 : flatten_outline o2 <;> simp [flatten_outline, h2]
    | cons item rest ih =>
        cases hi : flattenItem item <;>
          cases hr : flatten_outline rest <;>
            cases h2 : flatten_outline o2 <;>
              simp_all [flatten_outline, List.append_assoc]
  · intro item partv ds h1 h2
    simp [flatten_outline, flattenItem, h1, h2, expandPages_map_pdict]
  · intro item h
    rcases h with h | h
    · cases hp : dictGet item "pages" <;>
        simp [flatten_outline, flattenItem, h, hp]
    · cases hp : dictGet item "part" <;>
        simp [flatten_outline, flattenItem, h, hp]
  · intro d partv
    exact dictGet_dictSet_self d "part" partv
  · rfl
  · rfl

/-- C1 witness: the part-item conjunct applied at a concrete one-part
outline, hypotheses discharged by evaluation. -/
theorem C1_flatten_outline_spec_witness :
    flatten_outline
        [[("part", PyVal.pstr "P"),
          ("pages", PyVal.plist [PyVal.pdict [("title", PyVal.pstr "A")]])]] =
      some [[("title", PyVal.pstr "A"), ("part", PyVal.pstr "P")]] :=
  C1_flatten_outline_spec.2.1
    [("part", PyVal.pstr "P"),
     ("pages", PyVal.plist [PyVal.pdict [("title", PyVal.pstr "A")]])]
    (PyVal.pstr "P") [[("title", PyVal.pstr "A")]] rfl rfl

/-- C4: an AI response whose JSON body (`core`, possibly with inner
whitespace padding `wsA`/`wsB`) is wrapped in a leading ```json fence and
a trailing ``` fence with surrounding whitespace `ws1`/`ws2` is stripped
by the `generate_outline` / `parse_outline_text` post-processing
(`stripJsonFence`) to exactly `core`, the same string the processing
yields on the unwrapped body — hence `json.loads` returns the same parsed
value in both cases.  The hypotheses say the body's first and last
non-whitespace characters are not fence-marker characters, which holds of
any JSON array or object (bracket and brace characters are not fence-marker characters). -/
theorem C4_strip_code_fence
    (ws1 wsA wsB ws2 core : List Char)
    (h1 : ∀ c ∈ ws1, pyIsSpace c = true)
    (hA : ∀ c ∈ wsA, pyIsSpace c = true)
    (hB : ∀ c ∈ wsB, pyIsSpace c = true)
    (h2 : ∀ c ∈ ws2, pyIsSpace c = true)
    (hcore : core ≠ [])
    (hhead : fenceJsonChars.contains (core.headD ' ') = false ∧
             fenceTickChars.contains (core.headD ' ') = false ∧
             pyIsSpace (core.headD ' ') = false)
    (hlast : fenceJsonChars.contains (core.getLastD ' ') = false ∧
             fenceTickChars.contains (core.getLastD ' ') = false ∧
             pyIsSpace (core.getLastD ' ') = false) :
    stripJsonFence
        ⟨ws1 ++ ((fenceJsonChars ++ ((wsA ++ (core ++ wsB)) ++ fenceTickChars))
          ++ ws2)⟩ = ⟨core⟩ ∧
    stripJsonFence ⟨wsA ++ (core ++ wsB)⟩ = ⟨core⟩ := by
  have hhead2 : ∀ c, core.head? = some c →
      fenceJsonChars.contains c = false ∧ fenceTickChars.contains c = false ∧
      pyIsSpace c = false := by
    intro c hc
    have hd : core.headD ' ' = c := by rw [List.headD_eq_head?, hc]; rfl
    exact hd ▸ hhead
  have hlast2 : ∀ c, core.getLast? = some c →
      fenceJsonChars.contains c = false ∧ fenceTickChars.contains c = false ∧
      pyIsSpace c = false := by
    intro c hc
    have hd : core.getLastD ' ' = c := by rw [List.getLastD_eq_getLast?, hc]; rfl
    exact hd ▸ hlast
  have hBne : wsA ++ (core ++ wsB) ≠ [] := by
    intro hB0
    rw [List.append_eq_nil, List.append_eq_nil] at hB0
    exact hcore hB0.2.1
  have hBheadJson := padded_head_not (fun c => fenceJsonChars.contains c)
    wsA core wsB hA hcore (fun c hc => (hhead2 c hc).1) space_not_fenceJson
  have hBheadTick := padded_head_not (fun c => fenceTickChars.contains c)
    wsA core wsB hA hcore (fun c hc => (hhead2 c hc).2.1) space_not_fenceTick
  have hBlastJson := padded_last_not (fun c => fenceJsonChars.contains c)
    wsA core wsB hB hcore (fun c hc => (hlast2 c hc).1) space_not_fenceJson
  have hBlastTick := padded_last_not (fun c => fenceTickChars.contains c)
    wsA core wsB hB hcore (fun c hc => (hlast2 c hc).2.1) space_not_fenceTick
  have e4 : stripList pyIsSpace (wsA ++ (core ++ wsB)) = core :=
    stripList_padded pyIsSpace wsA core wsB hcore hA hB
      (fun c hc => (hhead2 c hc).2.2) (fun c hc => (hlast2 c hc).2.2)
  have e1 : stripList pyIsSpace
      (ws1 ++ ((fenceJsonChars ++ ((wsA ++ (core ++ wsB)) ++ fenceTickChars))
        ++ ws2)) =
      fenceJsonChars ++ ((wsA ++ (core ++ wsB)) ++ fenceTickChars) := by
    apply stripList_padded pyIsSpace ws1 _ ws2 ?hm h1 h2 ?hh ?ht
    case hm =>
      intro h0
      rw [List.append_eq_nil] at h0
      exact absurd h0.1 (by decide)
    case hh =>
      intro a ha
      rw [List.head?_append_of_ne_nil fenceJsonChars (by decide)] at ha
      have hv : fenceJsonChars.head?.getD ' ' = a := by rw [ha]; rfl
      rw [← hv]; decide
    case ht =>
      intro a ha
      rw [← List.append_assoc] at ha
      rw [List.getLast?_append_of_ne_nil _
        (show fenceTickChars ≠ [] by decide)] at ha
      have hv : fenceTickChars.getLast?.getD ' ' = a := by rw [ha]; rfl
      rw [← hv]; decide
  have e2 : stripList (fun c => fenceJsonChars.contains c)
      (fenceJsonChars ++ ((wsA ++ (core ++ wsB)) ++ fenceTickChars)) =
      wsA ++ (core ++ wsB) :=
    stripList_padded _ fenceJsonChars _ fenceTickChars hBne
      (by decide) (by decide) hBheadJson hBlastJson
  have e3 : stripList (fun c => fenceTickChars.contains c)
      (wsA ++ (core ++ wsB)) = wsA ++ (core ++ wsB) :=
    stripList_no_strip _ _ hBheadTick hBlastTick
  constructor
  · rw [stripJsonFence_mk, e1, e2, e3, e4]
  · have e2d : stripList (fun c => fenceJsonChars.contains c) core = core :=
      stripList_no_strip _ _ (fun c hc => (hhead2 c hc).1)
        (fun c hc => (hlast2 c hc).1)
    have e3d : stripList (fun c => fenceTickChars.contains c) core = core :=
      stripList_no_strip _ _ (fun c hc => (hhead2 c hc).2.1)
        (fun c hc => (hlast2 c hc).2.1)
    have e4d : stripList pyIsSpace core = core :=
      stripList_no_strip _ _ (fun c hc => (hhead2 c hc).2.2)
        (fun c hc => (hlast2 c hc).2.2)
    rw [stripJsonFence_mk, e4, e2d, e3d, e4d]

/-- C4 witness: a concrete fenced response strips to its JSON body. -/
theorem C4_strip_code_fence_witness :
    stripJsonFence
        ⟨" ".data ++ ((fenceJsonChars ++
          (("\n".data ++ ("[1, 2]".data ++ "\n".data)) ++ fenceTickChars))
          ++ " ".data)⟩ = ⟨"[1, 2]".data⟩ ∧
    stripJsonFence ⟨"\n".data ++ ("[1, 2]".data ++ "\n".data)⟩ =
      ⟨"[1, 2]".data⟩ :=
  C4_strip_code_fence " ".data "\n".data "\n".data " ".data "[1, 2]".data
    (by decide) (by decide) (by decide) (by decide) (by decide)
    (by decide) (by decide)

/-- C2: for every reachable Task, `0 ≤ completed + failed ≤ total`
holds (the counters are `Nat`s, matching the spec's non-negative
integers), and once the status is COMPLETED or FAILED,
`completed + failed = total`. -/
theorem C2_task_counters_invariant (t : Task) (h : TaskReachable t) :
    0 ≤ t.completed + t.failed ∧ t.completed + t.failed ≤ t.total ∧
    ((t.status = TaskStatus.completed ∨ t.status = TaskStatus.failed) →
      t.completed + t.failed = t.total) := by
  induction h with
  | init n =>
      refine ⟨Nat.zero_le _, Nat.zero_le _, ?_⟩
      intro hc
      simp [createTask] at hc
  | step ht hstep ih =>
      cases hstep with
      | start hp =>
          refine ⟨Nat.zero_le _, ih.2.1, ?_⟩
          intro hc
          simp at hc
      | unitCompleted hp hlt =>
          refine ⟨Nat.zero_le _, ?_, ?_⟩
          · dsimp only
            omega
          · intro hc
            simp [hp] at hc
      | unitFailed hp hlt =>
          refine ⟨Nat.zero_le _, ?_, ?_⟩
          · dsimp only
            omega
          · intro hc
            simp [hp] at hc
      | finishCompleted hp he hor =>
          refine ⟨Nat.zero_le _, ?_, fun _ => ?_⟩
          · dsimp only
            omega
          · dsimp only
            exact he
      | finishFailed hp he hf hpos =>
          refine ⟨Nat.zero_le _, ?_, fun _ => ?_⟩
          · dsimp only
            omega
          · dsimp only
            exact he

/-- C2 witness: the invariant at a concrete mid-run observation point
(3 units total, one completed, processing). -/
theorem C2_task_counters_invariant_witness :
    0 ≤ witnessTask.completed + witnessTask.failed ∧
    witnessTask.completed + witnessTask.failed ≤ witnessTask.total ∧
    ((witnessTask.status = TaskStatus.completed ∨
        witnessTask.status = TaskStatus.failed) →
      witnessTask.completed + witnessTask.failed = witnessTask.total) :=
  C2_task_counters_invariant witnessTask
    (TaskReachable.step
      (TaskReachable.step (TaskReachable.init 3) (TaskStep.start _ rfl))
      (TaskStep.unitCompleted _ rfl (by decide)))

/-- C8: `generate_image` never returns `None` despite its `Optional`
annotation: on both wire formats, for every outcome of the external
effects, it either returns a successfully decoded image or raises. -/
theorem C8_generate_image_never_none (cfg : AIServiceCfg) (o : Oracles)
    (chatPrep : Except PyErr Unit) (post : Except PyErr ChatResponse)
    (refGiven refExists : Bool) (nativePrep : Except PyErr Unit)
    (call : Except PyErr (List RespPart)) :
    generate_image cfg o chatPrep post refGiven refExists nativePrep call ≠
      Except.ok none ∧
    ((∃ img, generate_image cfg o chatPrep post refGiven refExists nativePrep
        call = Except.ok (some img)) ∨
     (∃ e, generate_image cfg o chatPrep post refGiven refExists nativePrep
        call = Except.error e)) := by
  have hshape : (∃ img, generate_image cfg o chatPrep post refGiven refExists
      nativePrep call = Except.ok (some img)) ∨
      (∃ e, generate_image cfg o chatPrep post refGiven refExists nativePrep
        call = Except.error e) := by
    unfold generate_image
    by_cases hc : cfg.use_chat_format = true
    · rw [if_pos hc]
      unfold generate_image_chat_format
      cases chatFormatBody o chatPrep post with
      | ok img => exact Or.inl ⟨img, rfl⟩
      | error e => exact Or.inr ⟨_, rfl⟩
    · rw [if_neg hc]
      unfold nativeResult
      cases nativeBody refGiven refExists nativePrep call with
      | ok img => exact Or.inl ⟨img, rfl⟩
      | error e => exact Or.inr ⟨_, rfl⟩
  refine ⟨?_, hshape⟩
  intro hnone
  rcases hshape with ⟨img, h⟩ | ⟨e, h⟩
  · rw [hnone] at h
    simp at h
  · rw [hnone] at h
    exact Except.noConfusion h

/-- C6 counterexample: at a concrete failing input (a chat-format
service whose response has neither `data` nor `choices`),
`generate_image` raises a plain `Exception`, not the `GenerationError`
the claim names — no `GenerationError` class exists in the repository.
The first conjunct ties the configuration to a real `__init__` run. -/
theorem C6_not_generation_error :
    AIService_init (some "k") (some "https://api.example.com/v1/") none none =
      Except.ok chatCexCfg ∧
    errKind (generate_image chatCexCfg cexOracles (Except.ok ())
      (Except.ok ⟨[], []⟩) false true (Except.ok ()) (Except.ok [])) =
      some ExcKind.exception ∧
    errKind (generate_image chatCexCfg cexOracles (Except.ok ())
      (Except.ok ⟨[], []⟩) false true (Except.ok ()) (Except.ok [])) ≠
      some ExcKind.generationError := by
  refine ⟨rfl, rfl, by decide⟩

/-- C6 (amended): whenever image generation fails — quota, network,
response-parse failure, or no image in the response — `generate_image`
raises, and what it raises is a generic `Exception` wrapping the detail
message (the code defines no dedicated `GenerationError` type). -/
theorem C6_generate_image_raises_generic_exception (cfg : AIServiceCfg)
    (o : Oracles) (chatPrep : Except PyErr Unit)
    (post : Except PyErr ChatResponse) (refGiven refExists : Bool)
    (nativePrep : Except PyErr Unit) (call : Except PyErr (List RespPart))
    (e : PyErr)
    (h : generate_image cfg o chatPrep post refGiven refExists nativePrep call
       = Except.error e) :
    e.kind = ExcKind.exception := by
  unfold generate_image at h
  by_cases hc : cfg.use_chat_format = true
  · rw [if_pos hc] at h
    unfold generate_image_chat_format at h
    cases hb : chatFormatBody o chatPrep post with
    | ok img => rw [hb] at h; exact Except.noConfusion h
    | error e0 =>
        rw [hb] at h
        injection h with h1
        rw [← h1]
  · rw [if_neg hc] at h
    unfold nativeResult at h
    cases hb : nativeBody refGiven refExists nativePrep call with
    | ok img => rw [hb] at h; exact Except.noConfusion h
    | error e0 =>
        rw [hb] at h
        injection h with h1
        rw [← h1]

/-- C6 witness: the amended claim evaluated at the concrete failing
input of the counterexample. -/
theorem C6_generate_image_raises_generic_exception_witness :
    (⟨ExcKind.exception,
      "Error generating image (chat format): " ++
        "No valid response from chat API"⟩ : PyErr).kind =
      ExcKind.exception :=
  C6_generate_image_raises_generic_exception chatCexCfg cexOracles
    (Except.ok ()) (Except.ok ⟨[], []⟩) false true (Except.ok ())
    (Except.ok [])
    ⟨ExcKind.exception,
      "Error generating image (chat format): " ++
        "No valid response from chat API"⟩ rfl

/-- C9 counterexample: an `image_api_key` that is provided but empty
(`some ""` rather than `None`) still makes the image credentials fall
back to the text key, so "defaults exactly when not provided" is false
— Python `or` keys the fallback on falsiness, not on absence. -/
theorem C9_empty_image_key_still_defaults :
    AIService_init (some "k") none (some "") none =
      Except.ok { api_key := "k", api_base := none, image_api_key := "k",
                  image_api_base := none, use_chat_format := false } ∧
    (some "" : Option String) ≠ none := by
  exact ⟨rfl, by simp⟩

/-- C9 (amended): a `None`, empty, or whitespace-only `api_key` raises
`ValueError` before any client is created; for every non-blank
`api_key` construction succeeds, and the image credentials fall back to
the text credentials exactly when `image_api_key` / `image_api_base`
are falsy (`None` or the empty string) — a provided non-empty value,
even whitespace-only, is used as-is. -/
theorem C9_init_validation_and_defaults
    (api_key api_base image_api_key image_api_base : Option String) :
    ((api_key = none ∨ api_key = some "" ∨
        (∃ k, api_key = some k ∧ pyStrip k = "")) →
      ∃ e, AIService_init api_key api_base image_api_key image_api_base =
          Except.error e ∧ e.kind = ExcKind.valueError) ∧
    (∀ k, api_key = some k → k ≠ "" → pyStrip k ≠ "" →
      ∃ cfg, AIService_init api_key api_base image_api_key image_api_base =
          Except.ok cfg ∧
        ((image_api_key = none ∨ image_api_key = some "") →
          cfg.image_api_key = k) ∧
        (∀ s, image_api_key = some s → s ≠ "" → cfg.image_api_key = s) ∧
        ((image_api_base = none ∨ image_api_base = some "") →
          cfg.image_api_base = api_base) ∧
        (∀ s, image_api_base = some s → s ≠ "" →
          cfg.image_api_base = some s) ∧
        cfg.use_chat_format = should_use_chat_format cfg.image_api_base) := by
  constructor
  · intro h
    rcases h with h | h | ⟨k, hk, hstrip⟩
    · subst h
      exact ⟨_, rfl, rfl⟩
    · subst h
      exact ⟨⟨ExcKind.valueError, "API key not configured"⟩,
        by simp [AIService_init], rfl⟩
    · subst hk
      exact ⟨⟨ExcKind.valueError, "API key not configured"⟩,
        by simp [AIService_init, hstrip], rfl⟩
  · intro k hk hne hsne
    subst hk
    have hok : AIService_init (some k) api_base image_api_key image_api_base =
        Except.ok
          { api_key := k
            api_base := api_base
            image_api_key := pyOrKey image_api_key k
            image_api_base := pyOrBase image_api_base api_base
            use_chat_format :=
              should_use_chat_format (pyOrBase image_api_base api_base) } := by
      simp [AIService_init, hne, hsne]
    refine ⟨_, hok, ?_, ?_, ?_, ?_, rfl⟩
    · intro h
      rcases h with h | h <;> subst h <;> simp [pyOrKey]
    · intro s hs hsne2
      subst hs
      simp [pyOrKey, hsne2]
    · intro h
      rcases h with h | h <;> subst h <;> simp [pyOrBase]
    · intro s hs hsne2
      subst hs
      simp [pyOrBase, hsne2]

/-- C9 witness: the amended claim at a concrete non-blank key with a
provided non-empty image key and image base. -/
theorem C9_init_validation_and_defaults_witness :
    ∃ cfg, AIService_init (some "key") none (some "ik")
        (some "https://apipro.example.com/") = Except.ok cfg ∧
      ((some "ik" = (none : Option String) ∨ (some "ik" : Option String) = some "") →
        cfg.image_api_key = "key") ∧
      (∀ s, (some "ik" : Option String) = some s → s ≠ "" → cfg.image_api_key = s) ∧
      ((some "https://apipro.example.com/" = (none : Option String) ∨
          (some "https://apipro.example.com/" : Option String) = some "") →
        cfg.image_api_base = none) ∧
      (∀ s, (some "https://apipro.example.com/" : Option String) = some s → s ≠ "" →
        cfg.image_api_base = some s) ∧
      cfg.use_chat_format = should_use_chat_format cfg.image_api_base :=
  (C9_init_validation_and_defaults (some "key") none (some "ik")
    (some "https://apipro.example.com/")).2 "key" rfl (by decide) (by decide)

/-- C10: `_should_use_chat_format` is a function of the api_base string
alone: false for `None` and for the empty string; false for every base
containing "googleapis.com" (even when a third-party pattern such as
"api." or "/v1/" is also present); otherwise true exactly when the base
contains one of "api.", "apipro.", "/v1/", "openai".  `generate_image`
dispatches to the chat-compatible path exactly when the flag computed
from the image API base is true, and `__init__` computes that flag with
this function on the resolved image API base. -/
theorem C10_should_use_chat_format_spec :
    should_use_chat_format none = false ∧
    should_use_chat_format (some "") = false ∧
    (∀ s, pyIn "googleapis.com" s = true →
      should_use_chat_format (some s) = false) ∧
    (∀ s, s ≠ "" → pyIn "googleapis.com" s = false →
      (should_use_chat_format (some s) = true ↔
        (pyIn "api." s = true ∨ pyIn "apipro." s = true ∨
         pyIn "/v1/" s = true ∨ pyIn "openai" s = true))) ∧
    (∀ (cfg : AIServiceCfg) (o : Oracles) (chatPrep : Except PyErr Unit)
        (post : Except PyErr ChatResponse) (refGiven refExists : Bool)
        (nativePrep : Except PyErr Unit) (call : Except PyErr (List RespPart)),
      cfg.use_chat_format = true →
      generate_image cfg o chatPrep post refGiven refExists nativePrep call =
        generate_image_chat_format o chatPrep post) ∧
    (∀ (cfg : AIServiceCfg) (o : Oracles) (chatPrep : Except PyErr Unit)
        (post : Except PyErr ChatResponse) (refGiven refExists : Bool)
        (nativePrep : Except PyErr Unit) (call : Except PyErr (List RespPart)),
      cfg.use_chat_format = false →
      generate_image cfg o chatPrep post refGiven refExists nativePrep call =
        nativeResult refGiven refExists nativePrep call) ∧
    (∀ ak ab ik ib cfg, AIService_init ak ab ik ib = Except.ok cfg →
      cfg.use_chat_format = should_use_chat_format cfg.image_api_base) := by
  refine ⟨rfl, rfl, ?_, ?_, ?_, ?_, ?_⟩
  · intro s hg
    by_cases hse : s = ""
    · simp [should_use_chat_format, hse]
    · simp [should_use_chat_format, hse, hg]
  · intro s hse hg
    have hgl : pyIn "generativelanguage.googleapis.com" s = false := by
      cases hq : pyIn "generativelanguage.googleapis.com" s with
      | false => rfl
      | true =>
          have ht : hasSubstr s.data "googleapis.com".data = true :=
            hasSubstr_trans s.data
              "generativelanguage.googleapis.com".data
              "googleapis.com".data hq (by decide)
          rw [show pyIn "googleapis.com" s =
            hasSubstr s.data "googleapis.com".data from rfl, ht] at hg
          exact Bool.noConfusion hg
    simp [should_use_chat_format, hse, hg, hgl, Bool.or_eq_true]
    tauto
  · intro cfg o chatPrep post refGiven refExists nativePrep call h
    simp [generate_image, h]
  · intro cfg o chatPrep post refGiven refExists nativePrep call h
    simp [generate_image, h]
  · intro ak ab ik ib cfg h
    cases ak with
    | none => exact Except.noConfusion h
    | some k =>
        simp only [AIService_init] at h
        split at h
        · exact Except.noConfusion h
        · injection h with h1
          rw [← h1]

/-- C10 witness: a Google base that also contains the third-party
pattern "/v1/" still selects the native SDK format. -/
theorem C10_should_use_chat_format_spec_witness :
    should_use_chat_format
      (some "https://generativelanguage.googleapis.com/v1/models") = false :=
  C10_should_use_chat_format_spec.2.2.1
    "https://generativelanguage.googleapis.com/v1/models" (by decide)

/-- C3: on every string content matching one of the four response
shapes, the source decoder (`decodeAction`, lines 530-584) behaves as
the priority decoder written from the claim (`claimOrderDecode`): the
first matching shape decides the action — data-URL and markdown
branches extract and split the embedded data for base64 decoding, the
remote-URL branch downloads, the raw-base64 branch decodes the whole
(end-stripped) content.  The stated raw-base64-before-remote-URL
priority is observationally correct because the two shapes are
disjoint: a URL-scheme prefix contains a colon, which no raw base64
blob contains. -/
theorem C3_decode_priority_order (content : List Char)
    (h : matchesDataUrlShape content = true ∨
         matchesMarkdownShape content = true ∨
         matchesRawB64Shape content = true ∨
         matchesRemoteUrlShape content = true) :
    claimOrderDecode content = some (decodeAction content) := by
  by_cases h0 : content.isEmpty = true
  · simp [decodeAction, claimOrderDecode, h0]
  · by_cases h1 : dataImageStart.isPrefixOf content = true
    · simp [decodeAction, claimOrderDecode, matchesDataUrlShape, h0, h1]
    · by_cases h2 : (hasSubstr content bangImageSub &&
          hasSubstr content dataImageStart) = true
      · simp [decodeAction, claimOrderDecode, matchesDataUrlShape, h0, h1, h2]
      · by_cases h3 : bangBracket.isPrefixOf content = true
        · simp [decodeAction, claimOrderDecode, matchesDataUrlShape,
            h0, h1, h2, h3]
        · by_cases h5 : matchesRawB64Shape content = true
          · have hu1 : httpPrefix.isPrefixOf content = false := by
              cases hq : httpPrefix.isPrefixOf content with
              | false => rfl
              | true =>
                  exact (rawShape_no_url content httpPrefix (by decide)
                    (by decide) (by decide) hq h5).elim
            have hu2 : httpsPrefix.isPrefixOf content = false := by
              cases hq : httpsPrefix.isPrefixOf content with
              | false => rfl
              | true =>
                  exact (rawShape_no_url content httpsPrefix (by decide)
                    (by decide) (by decide) hq h5).elim
            have hparts := h5
            simp only [matchesRawB64Shape, Bool.and_eq_true] at hparts
            obtain ⟨⟨hne, hlen⟩, _⟩ := hparts
            have hne2 : (stripList pyIsSpace content).isEmpty = false := by
              simpa using hne
            have hlen2 : ¬ (stripList pyIsSpace content).length < 100 :=
              Nat.not_lt.mpr (of_decide_eq_true hlen)
            simp [decodeAction, claimOrderDecode, matchesDataUrlShape,
              h0, h1, h2, h3, hu1, hu2, h5, hne2, hlen2]
          · by_cases h4 : (httpPrefix.isPrefixOf content ||
                httpsPrefix.isPrefixOf content) = true
            · simp [decodeAction, claimOrderDecode, matchesDataUrlShape,
                matchesRemoteUrlShape, h0, h1, h2, h3, h4, h5]
            · exfalso
              rcases h with hs | hs | hs | hs
              · exact h1 (by simpa [matchesDataUrlShape] using hs)
              · rcases (by simpa only [matchesMarkdownShape,
                    Bool.or_eq_true] using hs :
                    (hasSubstr content bangImageSub &&
                      hasSubstr content dataImageStart) = true ∨
                    bangBracket.isPrefixOf content = true) with hx | hx
                · exact h2 hx
                · exact h3 hx
              · exact h5 hs
              · exact h4 (by simpa only [matchesRemoteUrlShape] using hs)

/-- C3 witness: a data-URL content is decoded by the data-URL branch in
both the source decoder and the claim-order decoder. -/
theorem C3_decode_priority_order_witness :
    claimOrderDecode "data:image/png;base64,AAAA".data =
      some (decodeAction "data:image/png;base64,AAAA".data) :=
  C3_decode_priority_order "data:image/png;base64,AAAA".data
    (Or.inl (by decide))
